import Mathlib

/-!
Verification of the LocationService publish/subscribe client of the coco
repository. The JavaScript class is embedded shallowly: the object state
becomes a record, each method becomes a pure state transformer, the timers
and socket events become explicit events of a trace semantics, and callback
behaviour is abstracted by an environment telling which callback throws on
which sample. JavaScript numbers are modelled as exact rationals; the
properties settled here do not depend on rounding.
-/

namespace Coco

/-- Model of a JavaScript timestamp value: either a number, as produced by
Date.now(), or a string, such as an ISO date string. -/
inductive TSValue where
  | num (n : Int)
  | str (s : String)
  deriving DecidableEq, Repr

/-- Abstract model of the platform call new Date().toISOString() at instant
t: a rendering of the instant as a string ending in Z. -/
def isoString (t : Int) : String := toString t ++ "Z"

/-- JavaScript truthiness of a timestamp value: the number 0 and the empty
string are falsy. -/
def tsTruthy : TSValue → Bool
  | .num n => n != 0
  | .str s => s != ""

/-- Whether a timestamp value is numeric. -/
def tsIsNum : TSValue → Bool
  | .num _ => true
  | .str _ => false

/-- A location sample as cached in currentLocation and delivered to
listeners. A field absent from the JavaScript object literal is modelled as
none, and an absent demo field as false. -/
structure Location where
  latitude : ℚ
  longitude : ℚ
  timestamp : TSValue
  accuracy : Option ℚ
  demo : Bool
  deriving DecidableEq, Repr

/-- Inbound payload of the location socket event; timestamp and accuracy may
be absent. -/
structure LocPayload where
  latitude : ℚ
  longitude : ℚ
  timestamp : Option TSValue
  accuracy : Option ℚ
  deriving DecidableEq, Repr

/-- Body of the inbound location handler: builds the cached Location from
the payload at arrival instant t, defaulting the timestamp to the ISO string
of the arrival instant and the accuracy to null through the JavaScript
or-else operator, which also replaces falsy present values. -/
def handleLocationPayload (p : LocPayload) (t : Int) : Location :=
  { latitude := p.latitude
    longitude := p.longitude
    timestamp :=
      match p.timestamp with
      | some ts => if tsTruthy ts then ts else TSValue.str (isoString t)
      | none => TSValue.str (isoString t)
    accuracy :=
      match p.accuracy with
      | some a => if a != 0 then some a else none
      | none => none
    demo := false }

/-- Mutable closure state of enableDemoMode: the simulated latitude,
longitude and step direction. -/
structure DemoSim where
  lat : ℚ
  lon : ℚ
  dir : ℚ
  deriving DecidableEq, Repr

/-- Starting closure state of the simulator: Wynwood, Miami, direction 1. -/
def demoStartSim : DemoSim := { lat := 25.8010, lon := -80.1994, dir := 1 }

/-- One body of the 5 second demo interval, r1 and r2 being the two
Math.random() draws of that firing: move both coordinates, then flip the
shared direction once for each axis found outside the Miami bounds. -/
def demoTickSim (st : DemoSim) (r1 r2 : ℚ) : DemoSim :=
  let lat := st.lat + (r1 - 0.5) * 0.002 * st.dir
  let lon := st.lon + (r2 - 0.5) * 0.002 * st.dir
  let d1 := if lat > 25.85 ∨ lat < 25.75 then -st.dir else st.dir
  let d2 := if lon > -80.15 ∨ lon < -80.25 then -d1 else d1
  { lat := lat, lon := lon, dir := d2 }

/-- The fields initialised in the LocationService constructor. A socket is
identified by the creation index of the transport it refers to, an interval
by its creation index. -/
structure SvcState where
  socket : Option ℕ
  isConnected : Bool
  listeners : List ℕ
  reconnectAttempts : ℕ
  currentLocation : Option Location
  demoMode : Bool
  demoInterval : Option ℕ
  deriving DecidableEq, Repr

/-- Outbound socket emissions. -/
inductive OutEvent where
  | updateLocation (loc : Location)
  | broadcastStatus (isActive : Bool)
  deriving DecidableEq, Repr

/-- The service state together with the platform bookkeeping the claims are
about: how many transports io has created, how many intervals setInterval
has created, which intervals are still uncancelled together with their
closure state, how many 3 second fallback timeouts are pending, every
outbound emission, every callback invocation, and the callbacks whose
exception the notifier caught and logged. -/
structure World where
  svc : SvcState
  socketsCreated : ℕ
  intervalsCreated : ℕ
  activeIntervals : List (ℕ × DemoSim)
  fallbackTimers : ℕ
  emitted : List OutEvent
  notified : List (ℕ × Location)
  caught : List ℕ
  deriving DecidableEq, Repr

/-- Constructor state of the service. -/
def initSvc : SvcState :=
  { socket := none, isConnected := false, listeners := [],
    reconnectAttempts := 0, currentLocation := none,
    demoMode := false, demoInterval := none }

/-- Fresh world: constructor state, nothing created, nothing pending. -/
def initWorld : World :=
  { svc := initSvc, socketsCreated := 0, intervalsCreated := 0,
    activeIntervals := [], fallbackTimers := 0, emitted := [],
    notified := [], caught := [] }

/-- Behaviour of the registered callbacks: env cb loc is true when callback
cb throws when invoked with sample loc. -/
abbrev CbEnv := ℕ → Location → Bool

/-- Environment in which no callback ever throws. -/
def quietEnv : CbEnv := fun _ _ => false

/-- Environment in which every callback throws on every sample. -/
def loudEnv : CbEnv := fun _ _ => true

/-- The _notifyListeners loop: every listener is invoked in order with the
sample; a throwing listener is caught and logged and the iteration
continues. Returns the invocation list and the callbacks whose exception was
caught. -/
def notifyListeners (env : CbEnv) : List ℕ → Location → List (ℕ × Location) × List ℕ
  | [], _ => ([], [])
  | cb :: rest, loc =>
    let threw := env cb loc
    let tail := notifyListeners env rest loc
    ((cb, loc) :: tail.1, if threw then cb :: tail.2 else tail.2)

/-- connect(url, enableDemo): a no-op when a socket exists and isConnected
holds; otherwise creates a fresh transport through io, installs the
handlers, and, when enableDemo is set, arms a 3 second fallback timeout. -/
def doConnect (w : World) (enableDemo : Bool) : World :=
  if w.svc.socket.isSome && w.svc.isConnected then w
  else
    { w with
      svc := { w.svc with socket := some w.socketsCreated }
      socketsCreated := w.socketsCreated + 1
      fallbackTimers :=
        if enableDemo then w.fallbackTimers + 1 else w.fallbackTimers }

/-- disconnect(): guarded on this.socket; drops the transport reference,
flags disconnected, clears the listeners and the cached location. The
demoMode flag, the demoInterval handle, the uncancelled intervals and the
pending fallback timeouts are left untouched. -/
def doDisconnect (w : World) : World :=
  if w.svc.socket.isSome then
    { w with
      svc := { w.svc with
                socket := none
                isConnected := false
                listeners := []
                currentLocation := none } }
  else w

/-- subscribe(callback): pushes the callback, then, when a cached location
exists, invokes it synchronously once with that value outside any try block.
The Bool result records whether that replay threw; a throw propagates to the
caller of subscribe. -/
def doSubscribe (env : CbEnv) (w : World) (cb : ℕ) : World × Bool :=
  let w1 := { w with svc := { w.svc with listeners := w.svc.listeners ++ [cb] } }
  match w.svc.currentLocation with
  | some loc => ({ w1 with notified := w1.notified ++ [(cb, loc)] }, env cb loc)
  | none => (w1, false)

/-- The unsubscribe closure returned by subscribe: filters every occurrence
of the callback out of the listener list. -/
def doUnsubscribe (w : World) (cb : ℕ) : World :=
  { w with
    svc := { w.svc with listeners := w.svc.listeners.filter (fun l => l != cb) } }

/-- sendLocation(location): returns false and emits nothing when there is no
socket or isConnected is unset; otherwise emits exactly one updateLocation
event and returns true. -/
def doSendLocation (w : World) (loc : Location) : World × Bool :=
  if w.svc.socket.isSome && w.svc.isConnected then
    ({ w with emitted := w.emitted ++ [OutEvent.updateLocation loc] }, true)
  else (w, false)

/-- sendBroadcastStatus(isActive): same guard as sendLocation, emits one
broadcastStatus event. -/
def doSendBroadcastStatus (w : World) (b : Bool) : World × Bool :=
  if w.svc.socket.isSome && w.svc.isConnected then
    ({ w with emitted := w.emitted ++ [OutEvent.broadcastStatus b] }, true)
  else (w, false)

/-- getConnectionStatus(). -/
def getConnectionStatus (w : World) : Bool := w.svc.isConnected

/-- getCurrentLocation(). -/
def getCurrentLocation (w : World) : Option Location := w.svc.currentLocation

/-- The demo sample object literal built by enableDemoMode and by the
interval body: the closure coordinates, a numeric Date.now() timestamp and
the demo tag. -/
def tickLoc (sim : DemoSim) (t : Int) : Location :=
  { latitude := sim.lat, longitude := sim.lon, timestamp := TSValue.num t,
    accuracy := none, demo := true }

/-- enableDemoMode() at instant t: early return when demoMode is already
set; otherwise flags demoMode and isConnected, caches and fans out the
initial Wynwood sample tagged demo, and starts the 5 second interval with
closure state demoStartSim. -/
def doEnableDemo (env : CbEnv) (w : World) (t : Int) : World :=
  if w.svc.demoMode then w
  else
    let loc := tickLoc demoStartSim t
    let fan := notifyListeners env w.svc.listeners loc
    { w with
      svc := { w.svc with
                demoMode := true
                isConnected := true
                currentLocation := some loc
                demoInterval := some w.intervalsCreated }
      intervalsCreated := w.intervalsCreated + 1
      activeIntervals := w.activeIntervals ++ [(w.intervalsCreated, demoStartSim)]
      notified := w.notified ++ fan.1
      caught := w.caught ++ fan.2 }

/-- disableDemoMode(): early return when demoMode is unset; otherwise clears
the flags, cancels the interval held in demoInterval, and clears the
cache. -/
def doDisableDemo (w : World) : World :=
  if w.svc.demoMode then
    { w with
      svc := { w.svc with
                demoMode := false
                isConnected := false
                currentLocation := none
                demoInterval := none }
      activeIntervals :=
        match w.svc.demoInterval with
        | some iid => w.activeIntervals.filter (fun q => q.1 != iid)
        | none => w.activeIntervals }
  else w

/-- The 3 second timeout armed by connect, firing at instant t: if the
service is still not connected, enable demo mode. disconnect() never cancels
this timeout. -/
def doDemoFallback (env : CbEnv) (w : World) (t : Int) : World :=
  if w.fallbackTimers = 0 then w
  else if w.svc.isConnected then { w with fallbackTimers := w.fallbackTimers - 1 }
  else doEnableDemo env { w with fallbackTimers := w.fallbackTimers - 1 } t

/-- One firing of an uncancelled demo interval iid at instant t with random
draws r1 and r2: advances the closure state, overwrites the cached location
with the new demo sample and fans it out to the current listeners. -/
def doDemoTick (env : CbEnv) (w : World) (iid : ℕ) (r1 r2 : ℚ) (t : Int) : World :=
  match w.activeIntervals.lookup iid with
  | none => w
  | some sim =>
    let sim2 := demoTickSim sim r1 r2
    let loc := tickLoc sim2 t
    let fan := notifyListeners env w.svc.listeners loc
    { w with
      svc := { w.svc with currentLocation := some loc }
      activeIntervals :=
        w.activeIntervals.map (fun q => if q.1 = iid then (iid, sim2) else q)
      notified := w.notified ++ fan.1
      caught := w.caught ++ fan.2 }

/-- Handler of the transport connect signal on the current socket. -/
def doSockConnect (w : World) : World :=
  if w.svc.socket.isSome then
    { w with svc := { w.svc with isConnected := true, reconnectAttempts := 0 } }
  else w

/-- Handler of an inbound location socket event arriving at instant t:
caches the parsed sample and fans it out. -/
def doSockLocation (env : CbEnv) (w : World) (p : LocPayload) (t : Int) : World :=
  if w.svc.socket.isSome then
    let loc := handleLocationPayload p t
    let fan := notifyListeners env w.svc.listeners loc
    { w with
      svc := { w.svc with currentLocation := some loc }
      notified := w.notified ++ fan.1
      caught := w.caught ++ fan.2 }
  else w

/-- Handler of the connect_error signal. -/
def doSockConnectError (w : World) : World :=
  if w.svc.socket.isSome then
    { w with
      svc := { w.svc with
                isConnected := false
                reconnectAttempts := w.svc.reconnectAttempts + 1 } }
  else w

/-- Handler of the transport disconnect signal; the manual reconnect issued
on an io server disconnect is transport level and leaves this state alone. -/
def doSockDisconnect (w : World) : World :=
  if w.svc.socket.isSome then
    { w with svc := { w.svc with isConnected := false } }
  else w

/-- Handler of the reconnect signal. -/
def doSockReconnect (w : World) : World :=
  if w.svc.socket.isSome then
    { w with svc := { w.svc with isConnected := true, reconnectAttempts := 0 } }
  else w

/-- Handler of the reconnect_failed signal. -/
def doSockReconnectFailed (w : World) : World :=
  if w.svc.socket.isSome then
    { w with svc := { w.svc with isConnected := false } }
  else w

/-- External events driving the service: API calls, timer firings and socket
events. Instants and random draws are carried on the events. -/
inductive Ev where
  | connect (enableDemo : Bool)
  | disconnect
  | subscribe (cb : ℕ)
  | unsubscribe (cb : ℕ)
  | sendLocation (loc : Location)
  | sendBroadcastStatus (b : Bool)
  | enableDemo (t : Int)
  | disableDemo
  | demoFallback (t : Int)
  | demoTick (iid : ℕ) (r1 r2 : ℚ) (t : Int)
  | sockConnect
  | sockLocation (p : LocPayload) (t : Int)
  | sockConnectError
  | sockDisconnect
  | sockReconnect
  | sockReconnectFailed
  deriving DecidableEq, Repr

/-- One step of the event semantics. -/
def step (env : CbEnv) (w : World) : Ev → World
  | .connect d => doConnect w d
  | .disconnect => doDisconnect w
  | .subscribe cb => (doSubscribe env w cb).1
  | .unsubscribe cb => doUnsubscribe w cb
  | .sendLocation loc => (doSendLocation w loc).1
  | .sendBroadcastStatus b => (doSendBroadcastStatus w b).1
  | .enableDemo t => doEnableDemo env w t
  | .disableDemo => doDisableDemo w
  | .demoFallback t => doDemoFallback env w t
  | .demoTick iid r1 r2 t => doDemoTick env w iid r1 r2 t
  | .sockConnect => doSockConnect w
  | .sockLocation p t => doSockLocation env w p t
  | .sockConnectError => doSockConnectError w
  | .sockDisconnect => doSockDisconnect w
  | .sockReconnect => doSockReconnect w
  | .sockReconnectFailed => doSockReconnectFailed w

/-- Run a trace of events from the freshly constructed service. -/
def run (env : CbEnv) (es : List Ev) : World := es.foldl (step env) initWorld

/-- A fixed outbound location sample used in concrete scenarios. -/
def locSample : Location :=
  { latitude := 25.7617, longitude := -80.1918, timestamp := TSValue.num 42,
    accuracy := none, demo := false }

/-- The inbound payload of the spec scenario: coordinates only, no
timestamp, no accuracy. -/
def payloadNoTs : LocPayload :=
  { latitude := 25.7617, longitude := -80.1918, timestamp := none,
    accuracy := none }

/-- One simulator step under the adversarial draws 0.999 for the latitude
and 0.5 for the longitude. -/
def escStep (st : DemoSim) : DemoSim := demoTickSim st (999/1000) (1/2)

/-- Invariant behind the one-shot nature of demo mode: while demoMode is
unset no interval has ever been created, and never more than one. -/
def demoOnceInv (w : World) : Prop :=
  (w.svc.demoMode = false → w.intervalsCreated = 0) ∧ w.intervalsCreated ≤ 1

/-- A world whose listener list holds callback 1 twice around callback 2,
with a cached sample, used to instantiate the unsubscribe claim. -/
def wListEx : World :=
  { initWorld with
    svc := { initSvc with listeners := [1, 2, 1], currentLocation := some locSample } }

/-- The fan-out loop invokes every listener, in registration order, with the
sample, whatever the callbacks do. -/
theorem notifyListeners_calls (env : CbEnv) (l : List ℕ) (loc : Location) :
    (notifyListeners env l loc).1 = l.map (fun cb => (cb, loc)) := by
  induction l with
  | nil => rfl
  | cons cb rest ih => simp [notifyListeners, ih]

/-- The fan-out loop catches and logs exactly the throwing listeners. -/
theorem notifyListeners_caught (env : CbEnv) (l : List ℕ) (loc : Location) :
    (notifyListeners env l loc).2 = l.filter (fun cb => env cb loc) := by
  induction l with
  | nil => rfl
  | cons cb rest ih =>
    cases h : env cb loc <;> simp [notifyListeners, ih, List.filter_cons, h]

/-- Filtering a callback out of the listener list is idempotent. -/
theorem filter_ne_idem (l : List ℕ) (cb : ℕ) :
    (l.filter (fun x => x != cb)).filter (fun x => x != cb) =
      l.filter (fun x => x != cb) := by
  induction l with
  | nil => rfl
  | cons a rest ih =>
    cases h : (a != cb) <;> simp [List.filter_cons, h, ih]

/-- Filtering one callback out preserves the multiplicity of every other. -/
theorem count_filter_ne (l : List ℕ) (cb c : ℕ) (h : c ≠ cb) :
    (l.filter (fun x => x != cb)).count c = l.count c := by
  induction l with
  | nil => rfl
  | cons a rest ih =>
    by_cases ha : a = cb
    · subst ha
      have hca : ¬ (c = a) := h
      simp [List.filter_cons, List.count_cons, ih, hca]
    · have : (a != cb) = true := by simpa using ha
      simp [List.filter_cons, List.count_cons, this, ih]

/-- C4: whatever state the prior events produced, subscribe appends the new
callback to the listener list and invokes it synchronously exactly once with
the cached location when one exists, and not at all when the cache is
empty. -/
theorem C4_subscribe_replay (env : CbEnv) (w : World) (cb : ℕ) :
    (doSubscribe env w cb).1.notified =
      w.notified ++ (match w.svc.currentLocation with
        | some loc => [(cb, loc)]
        | none => []) ∧
    (doSubscribe env w cb).1.svc.listeners = w.svc.listeners ++ [cb] := by
  cases hc : w.svc.currentLocation <;> simp [doSubscribe, hc]

/-- C5: during fan-out of one sample every listener is invoked with that
sample in registration order, whichever listeners throw; the throwing
listeners are exactly the ones caught and logged; and the notifying steps
leave the listener list unchanged, so a thrower is never deregistered. -/
theorem C5_fanout_isolation :
    (∀ (env : CbEnv) (l : List ℕ) (loc : Location),
      (notifyListeners env l loc).1 = l.map (fun cb => (cb, loc)) ∧
      (notifyListeners env l loc).2 = l.filter (fun cb => env cb loc)) ∧
    (∀ (env : CbEnv) (w : World) (p : LocPayload) (t : Int),
      (doSockLocation env w p t).svc.listeners = w.svc.listeners) ∧
    (∀ (env : CbEnv) (w : World) (iid : ℕ) (r1 r2 : ℚ) (t : Int),
      (doDemoTick env w iid r1 r2 t).svc.listeners = w.svc.listeners) := by
  refine ⟨fun env l loc => ⟨notifyListeners_calls env l loc,
    notifyListeners_caught env l loc⟩, fun env w p t => ?_, fun env w iid r1 r2 t => ?_⟩
  · unfold doSockLocation
    split <;> rfl
  · unfold doDemoTick
    cases w.activeIntervals.lookup iid <;> rfl

/-- C6: once the unsubscribe closure has run, the callback is gone from the
listener list even when registered several times, so fan-out never invokes
it again; running the closure twice equals running it once; and every other
callback keeps its registration count and keeps being invoked by fan-out. -/
theorem C6_unsubscribe_removes_all (env : CbEnv) (w : World) (cb : ℕ) (loc : Location) :
    (∀ q ∈ (notifyListeners env (doUnsubscribe w cb).svc.listeners loc).1, q.1 ≠ cb) ∧
    doUnsubscribe (doUnsubscribe w cb) cb = doUnsubscribe w cb ∧
    (∀ c : ℕ, c ≠ cb →
      (doUnsubscribe w cb).svc.listeners.count c = w.svc.listeners.count c ∧
      ((c, loc) ∈ (notifyListeners env (doUnsubscribe w cb).svc.listeners loc).1 ↔
        (c, loc) ∈ (notifyListeners env w.svc.listeners loc).1)) := by
  refine ⟨?_, ?_, ?_⟩
  · intro q hq
    rw [notifyListeners_calls] at hq
    rcases List.mem_map.mp hq with ⟨c, hc, rfl⟩
    have hc2 : c ∈ w.svc.listeners ∧ ¬ c = cb := by
      simpa [doUnsubscribe, List.mem_filter] using hc
    simpa using hc2.2
  · simp [doUnsubscribe, filter_ne_idem]
  · intro c hc
    constructor
    · simpa [doUnsubscribe] using count_filter_ne w.svc.listeners cb c hc
    · rw [notifyListeners_calls, notifyListeners_calls]
      simp only [doUnsubscribe, List.mem_map]
      constructor
      · rintro ⟨x, hx, hx2⟩
        exact ⟨x, (List.mem_filter.mp hx).1, hx2⟩
      · rintro ⟨x, hx, hx2⟩
        refine ⟨x, List.mem_filter.mpr ⟨hx, ?_⟩, hx2⟩
        have : x = c := by
          have := congrArg Prod.fst hx2
          simpa using this
        simpa [this] using hc

/-- Witness for the unsubscribe claim: after removing callback 1 from the
list [1, 2, 1] with the cached sample present, a fan-out call goes to
callback 2 and not to callback 1, and the registration count of callback 2
is untouched. -/
theorem C6_unsubscribe_removes_all_witness :
    ((2 : ℕ), locSample).1 ≠ 1 ∧
    (doUnsubscribe wListEx 1).svc.listeners.count 2 = wListEx.svc.listeners.count 2 := by
  refine ⟨(C6_unsubscribe_removes_all quietEnv wListEx 1 locSample).1 (2, locSample) ?_,
    ((C6_unsubscribe_removes_all quietEnv wListEx 1 locSample).2.2 2 (by decide)).1⟩
  exact List.mem_singleton.mpr rfl

/-- C7 amended: the subscribe replay runs outside any try block, so
subscribe propagates an exception exactly when a cached location exists and
the new callback throws on it, the callback staying registered; sendLocation
invokes no callback at all, so it has nothing to propagate. -/
theorem C7_exception_paths (env : CbEnv) (w : World) (cb : ℕ) :
    ((doSubscribe env w cb).2 = (match w.svc.currentLocation with
      | some loc => env cb loc
      | none => false)) ∧
    (doSubscribe env w cb).1.svc.listeners = w.svc.listeners ++ [cb] ∧
    (∀ loc : Location, (doSendLocation w loc).1.notified = w.notified ∧
      (doSendLocation w loc).1.svc.listeners = w.svc.listeners) := by
  refine ⟨?_, ?_, fun loc => ?_⟩
  · cases hc : w.svc.currentLocation <;> simp [doSubscribe, hc]
  · cases hc : w.svc.currentLocation <;> simp [doSubscribe, hc]
  · unfold doSendLocation
    split <;> exact ⟨rfl, rfl⟩

/-- C7 counterexample: in the demo state, which caches a sample, subscribing
a callback that throws during the synchronous replay makes subscribe itself
propagate the exception to its caller. -/
theorem C7_subscribe_throw_counterexample :
    (run loudEnv [Ev.connect true, Ev.demoFallback 0]).svc.currentLocation.isSome = true ∧
    (doSubscribe loudEnv (run loudEnv [Ev.connect true, Ev.demoFallback 0]) 7).2 = true := by
  exact ⟨by decide, by decide⟩

/-- C1 amended: sendLocation returns true and emits exactly one
updateLocation event precisely when a transport object exists and
isConnected is set; otherwise it returns false and leaves the world
untouched. -/
theorem C1_sendLocation_guard (w : World) (loc : Location) :
    (doSendLocation w loc).2 = (w.svc.socket.isSome && w.svc.isConnected) ∧
    (doSendLocation w loc).1.emitted =
      (if w.svc.socket.isSome && w.svc.isConnected
        then w.emitted ++ [OutEvent.updateLocation loc] else w.emitted) ∧
    ((w.svc.socket.isSome && w.svc.isConnected) = false →
      (doSendLocation w loc).1 = w) := by
  by_cases h : (w.svc.socket.isSome && w.svc.isConnected) = true <;>
    simp [doSendLocation, h]

/-- Witness for the sendLocation guard at the freshly constructed,
disconnected service. -/
theorem C1_sendLocation_guard_witness :
    (doSendLocation initWorld locSample).2 =
      (initWorld.svc.socket.isSome && initWorld.svc.isConnected) ∧
    (doSendLocation initWorld locSample).1 = initWorld := by
  exact ⟨(C1_sendLocation_guard initWorld locSample).1,
    (C1_sendLocation_guard initWorld locSample).2.2 (by decide)⟩

/-- C1 counterexample: in the simulated-connected demo state reached through
connect and its fallback, where demoMode holds and no event was ever
emitted, sendLocation returns true and emits an updateLocation event,
instead of returning false without network action. -/
theorem C1_sendLocation_demo_counterexample :
    (run quietEnv [Ev.connect true, Ev.demoFallback 0]).svc.demoMode = true ∧
    getConnectionStatus (run quietEnv [Ev.connect true, Ev.demoFallback 0]) = true ∧
    (run quietEnv [Ev.connect true, Ev.demoFallback 0]).emitted = [] ∧
    (doSendLocation (run quietEnv [Ev.connect true, Ev.demoFallback 0]) locSample).2 = true ∧
    (doSendLocation (run quietEnv [Ev.connect true, Ev.demoFallback 0]) locSample).1.emitted =
      [OutEvent.updateLocation locSample] := by
  exact ⟨by decide, by decide, rfl, by decide, rfl⟩

/-- C2: with the simulator active, disconnect leaves the demo interval
uncancelled, and a tick firing after disconnect returned still runs: it
repopulates the location cache, which disconnect had cleared, with a fresh
demo sample. -/
theorem C2_tick_survives_disconnect :
    (run quietEnv [Ev.connect true, Ev.demoFallback 0, Ev.disconnect]).activeIntervals.length = 1 ∧
    (run quietEnv [Ev.connect true, Ev.demoFallback 0, Ev.disconnect]).svc.currentLocation = none ∧
    (run quietEnv [Ev.connect true, Ev.demoFallback 0, Ev.disconnect,
        Ev.demoTick 0 (1/2) (1/2) 8]).svc.currentLocation.isSome = true ∧
    ((run quietEnv [Ev.connect true, Ev.demoFallback 0, Ev.disconnect,
        Ev.demoTick 0 (1/2) (1/2) 8]).svc.currentLocation.map Location.demo).getD false = true := by
  exact ⟨by decide, by decide, by decide, by decide⟩

/-- C3 counterexample: two immediate connect calls, the second arriving
before any transport connect event, create two transports instead of one. -/
theorem C3_double_connect_counterexample :
    (run quietEnv [Ev.connect true, Ev.connect true]).socketsCreated = 2 ∧
    ¬ (run quietEnv [Ev.connect true, Ev.connect true]).socketsCreated = 1 := by
  exact ⟨by decide, by decide⟩

/-- C3 amended: connect is a no-op exactly when a socket exists and
isConnected holds, which covers the Connected state and the demo state
reached through the fallback; in every other state, including Connecting,
it creates one fresh transport. -/
theorem C3_connect_noop_guard (w : World) (d : Bool) :
    ((w.svc.socket.isSome && w.svc.isConnected) = true → doConnect w d = w) ∧
    ((w.svc.socket.isSome && w.svc.isConnected) = false →
      (doConnect w d).socketsCreated = w.socketsCreated + 1 ∧
      (doConnect w d).svc.socket = some w.socketsCreated) := by
  constructor <;> intro h <;> simp [doConnect, h]

/-- Witness for the connect guard: a connect in the demo state is a no-op,
a connect on the fresh service creates one transport. -/
theorem C3_connect_noop_guard_witness :
    doConnect (run quietEnv [Ev.connect true, Ev.demoFallback 0]) true =
      run quietEnv [Ev.connect true, Ev.demoFallback 0] ∧
    (doConnect initWorld true).socketsCreated = initWorld.socketsCreated + 1 := by
  exact ⟨(C3_connect_noop_guard _ true).1 (by decide),
    ((C3_connect_noop_guard initWorld true).2 (by decide)).1⟩

/-- C9 counterexample: the scenario payload without timestamp, arriving at
instant 1700000000000, is cached with the ISO string of the arrival
instant, which is not a numeric timestamp. -/
theorem C9_string_timestamp_counterexample :
    (handleLocationPayload payloadNoTs 1700000000000).timestamp =
      TSValue.str (isoString 1700000000000) ∧
    tsIsNum (handleLocationPayload payloadNoTs 1700000000000).timestamp = false := by
  exact ⟨rfl, rfl⟩

/-- C9 amended: when the payload omits the timestamp, the cached location
carries a defined timestamp, namely the ISO string of the arrival instant,
a string rather than a number; the inbound handler caches exactly this
parsed sample. -/
theorem C9_timestamp_defaulted (env : CbEnv) (w : World) (p : LocPayload) (t : Int) :
    (p.timestamp = none →
      (handleLocationPayload p t).timestamp = TSValue.str (isoString t) ∧
      tsIsNum (handleLocationPayload p t).timestamp = false) ∧
    (w.svc.socket.isSome = true →
      (doSockLocation env w p t).svc.currentLocation = some (handleLocationPayload p t)) := by
  constructor
  · intro h
    simp [handleLocationPayload, h, tsIsNum]
  · intro h
    simp [doSockLocation, h]

/-- Witness for the timestamp default at the scenario payload and a
connected-socket world. -/
theorem C9_timestamp_defaulted_witness :
    (handleLocationPayload payloadNoTs 99).timestamp = TSValue.str (isoString 99) ∧
    (doSockLocation quietEnv (doConnect initWorld false) payloadNoTs 99).svc.currentLocation =
      some (handleLocationPayload payloadNoTs 99) := by
  exact ⟨((C9_timestamp_defaulted quietEnv initWorld payloadNoTs 99).1 rfl).1,
    (C9_timestamp_defaulted quietEnv (doConnect initWorld false) payloadNoTs 99).2 (by decide)⟩

/-- enableDemoMode either early-returns, when demoMode already holds, or
sets demoMode and creates exactly one interval. -/
theorem doEnableDemo_cases (env : CbEnv) (w : World) (t : Int) :
    (w.svc.demoMode = true ∧ doEnableDemo env w t = w) ∨
    (w.svc.demoMode = false ∧ (doEnableDemo env w t).svc.demoMode = true ∧
      (doEnableDemo env w t).intervalsCreated = w.intervalsCreated + 1) := by
  by_cases h : w.svc.demoMode = true
  · exact Or.inl ⟨h, by simp [doEnableDemo, h]⟩
  · refine Or.inr ⟨by simpa using h, ?_, ?_⟩ <;> simp [doEnableDemo, h]

/-- Every event other than disableDemoMode either preserves both the
interval-creation count and the demoMode flag, or flips demoMode from unset
to set while creating exactly one interval. -/
theorem step_created_demoMode (env : CbEnv) (w : World) (e : Ev)
    (he : e ≠ Ev.disableDemo) :
    ((step env w e).intervalsCreated = w.intervalsCreated ∧
      (step env w e).svc.demoMode = w.svc.demoMode) ∨
    (w.svc.demoMode = false ∧ (step env w e).svc.demoMode = true ∧
      (step env w e).intervalsCreated = w.intervalsCreated + 1) := by
  cases e with
  | connect d =>
    left
    constructor <;> (simp only [step]; unfold doConnect; split <;> rfl)
  | disconnect =>
    left
    constructor <;> (simp only [step]; unfold doDisconnect; split <;> rfl)
  | subscribe cb =>
    left
    constructor <;> (simp only [step]; unfold doSubscribe; cases w.svc.currentLocation <;> rfl)
  | unsubscribe cb => exact Or.inl ⟨rfl, rfl⟩
  | sendLocation loc =>
    left
    constructor <;> (simp only [step]; unfold doSendLocation; split <;> rfl)
  | sendBroadcastStatus b =>
    left
    constructor <;> (simp only [step]; unfold doSendBroadcastStatus; split <;> rfl)
  | enableDemo t =>
    rcases doEnableDemo_cases env w t with ⟨h1, h2⟩ | ⟨h1, h2, h3⟩
    · left
      rw [show step env w (Ev.enableDemo t) = doEnableDemo env w t from rfl, h2]
      exact ⟨rfl, rfl⟩
    · exact Or.inr ⟨h1, h2, h3⟩
  | disableDemo => exact absurd rfl he
  | demoFallback t =>
    rw [show step env w (Ev.demoFallback t) = doDemoFallback env w t from rfl]
    unfold doDemoFallback
    split
    · exact Or.inl ⟨rfl, rfl⟩
    · split
      · exact Or.inl ⟨rfl, rfl⟩
      · rcases doEnableDemo_cases env { w with fallbackTimers := w.fallbackTimers - 1 } t
          with ⟨h1, h2⟩ | ⟨h1, h2, h3⟩
        · left
          rw [h2]
          exact ⟨rfl, rfl⟩
        · exact Or.inr ⟨h1, h2, h3⟩
  | demoTick iid r1 r2 t =>
    left
    constructor <;> (simp only [step]; unfold doDemoTick; cases w.activeIntervals.lookup iid <;> rfl)
  | sockConnect =>
    left
    constructor <;> (simp only [step]; unfold doSockConnect; split <;> rfl)
  | sockLocation p t =>
    left
    constructor <;> (simp only [step]; unfold doSockLocation; split <;> rfl)
  | sockConnectError =>
    left
    constructor <;> (simp only [step]; unfold doSockConnectError; split <;> rfl)
  | sockDisconnect =>
    left
    constructor <;> (simp only [step]; unfold doSockDisconnect; split <;> rfl)
  | sockReconnect =>
    left
    constructor <;> (simp only [step]; unfold doSockReconnect; split <;> rfl)
  | sockReconnectFailed =>
    left
    constructor <;> (simp only [step]; unfold doSockReconnectFailed; split <;> rfl)

/-- The one-shot invariant is preserved by every step that is not
disableDemoMode. -/
theorem demoOnceInv_step (env : CbEnv) (w : World) (e : Ev)
    (hw : demoOnceInv w) (he : e ≠ Ev.disableDemo) : demoOnceInv (step env w e) := by
  rcases step_created_demoMode env w e he with ⟨h1, h2⟩ | ⟨h1, h2, h3⟩
  · exact ⟨fun hd => h1 ▸ hw.1 (h2 ▸ hd), h1 ▸ hw.2⟩
  · constructor
    · intro hd
      rw [h2] at hd
      cases hd
    · rw [h3, hw.1 h1]

/-- The one-shot invariant is preserved along any event list free of
disableDemoMode. -/
theorem demoOnceInv_foldl (env : CbEnv) :
    ∀ (es : List Ev) (w : World), demoOnceInv w →
      (∀ e ∈ es, e ≠ Ev.disableDemo) → demoOnceInv (es.foldl (step env) w) := by
  intro es
  induction es with
  | nil => exact fun w hw _ => hw
  | cons e rest ih =>
    intro w hw hes
    exact ih (step env w e)
      (demoOnceInv_step env w e hw (hes e (List.mem_cons_self e rest)))
      (fun x hx => hes x (List.mem_cons_of_mem e hx))

/-- C10: disconnect never resets the demoMode flag; enableDemoMode is a
complete no-op once demoMode is set; along every trace free of
disableDemoMode at most one demo interval is ever created; and in the
concrete disconnect-then-reconnect scenario the second fallback leaves the
service disconnected, creates no interval, and publishes nothing. -/
theorem C10_demo_once :
    (∀ w : World, (doDisconnect w).svc.demoMode = w.svc.demoMode) ∧
    (∀ (env : CbEnv) (w : World) (t : Int),
      w.svc.demoMode = true → doEnableDemo env w t = w) ∧
    (∀ (env : CbEnv) (es : List Ev), (∀ e ∈ es, e ≠ Ev.disableDemo) →
      (run env es).intervalsCreated ≤ 1) ∧
    (run quietEnv [Ev.connect true, Ev.demoFallback 0, Ev.disconnect, Ev.connect true,
      Ev.demoFallback 5]).svc.isConnected = false ∧
    (run quietEnv [Ev.connect true, Ev.demoFallback 0, Ev.disconnect, Ev.connect true,
      Ev.demoFallback 5]).intervalsCreated = 1 ∧
    (run quietEnv [Ev.connect true, Ev.demoFallback 0, Ev.disconnect, Ev.connect true,
      Ev.demoFallback 5]).notified =
      (run quietEnv [Ev.connect true, Ev.demoFallback 0, Ev.disconnect,
        Ev.connect true]).notified ∧
    (run quietEnv [Ev.connect true, Ev.demoFallback 0, Ev.disconnect, Ev.connect true,
      Ev.demoFallback 5]).activeIntervals =
      (run quietEnv [Ev.connect true, Ev.demoFallback 0, Ev.disconnect,
        Ev.connect true]).activeIntervals := by
  refine ⟨fun w => ?_, fun env w t h => by simp [doEnableDemo, h], fun env es hes => ?_,
    by decide, by decide, rfl, rfl⟩
  · unfold doDisconnect
    split <;> rfl
  · exact (demoOnceInv_foldl env es initWorld ⟨fun _ => rfl, Nat.zero_le 1⟩ hes).2

/-- Witness for the one-shot demo claim: enableDemoMode is a no-op in the
demo state, and the one-connect trace creates at most one interval. -/
theorem C10_demo_once_witness :
    doEnableDemo quietEnv (run quietEnv [Ev.connect true, Ev.demoFallback 0]) 9 =
      run quietEnv [Ev.connect true, Ev.demoFallback 0] ∧
    (run quietEnv [Ev.connect true]).intervalsCreated ≤ 1 := by
  exact ⟨C10_demo_once.2.1 quietEnv _ 9 (by decide),
    C10_demo_once.2.2.1 quietEnv [Ev.connect true] (by decide)⟩

/-- Under the adversarial draws the simulated latitude grows by 499/500000
per tick and the direction never flips during the first 49 ticks, the
position staying inside the box. -/
theorem escStep_lat : ∀ k : ℕ, k ≤ 49 →
    escStep^[k] demoStartSim =
      { lat := 25.801 + (k : ℚ) * (499/500000), lon := -80.1994, dir := 1 } := by
  intro k
  induction k with
  | zero =>
    intro _
    simp only [Function.iterate_zero_apply, demoStartSim, DemoSim.mk.injEq]
    norm_num
  | succ k ih =>
    intro hk
    rw [Function.iterate_succ_apply', ih (Nat.le_of_succ_le hk)]
    have hkq : (k : ℚ) ≤ 48 := by exact_mod_cast Nat.le_of_succ_le_succ hk
    have hk0 : (0 : ℚ) ≤ (k : ℚ) := Nat.cast_nonneg k
    simp only [escStep, demoTickSim]
    have hlatC : ¬ (25.801 + (k : ℚ) * (499/500000) + ((999 : ℚ)/1000 - 0.5) * 0.002 * 1 > 25.85 ∨
        25.801 + (k : ℚ) * (499/500000) + ((999 : ℚ)/1000 - 0.5) * 0.002 * 1 < 25.75) := by
      push_neg
      constructor <;> nlinarith
    have hlonC : ¬ ((-80.1994 : ℚ) + ((1 : ℚ)/2 - 0.5) * 0.002 * 1 > -80.15 ∨
        (-80.1994 : ℚ) + ((1 : ℚ)/2 - 0.5) * 0.002 * 1 < -80.25) := by
      push_neg
      constructor <;> norm_num
    rw [if_neg hlatC, if_neg hlonC]
    simp only [DemoSim.mk.injEq]
    refine ⟨by push_cast; ring, by norm_num, trivial⟩

/-- The fiftieth adversarial tick pushes the simulated latitude to 25.8509,
strictly above the 25.85 bound; only then does the direction flip. -/
theorem escStep_fifty : escStep^[50] demoStartSim =
    { lat := 25.8509, lon := -80.1994, dir := -1 } := by
  have h49 := escStep_lat 49 (by norm_num)
  rw [show (50 : ℕ) = 49 + 1 from rfl, Function.iterate_succ_apply', h49]
  simp only [escStep, demoTickSim]
  have hlatC : (25.801 + ((49 : ℕ) : ℚ) * (499/500000) + ((999 : ℚ)/1000 - 0.5) * 0.002 * 1 > 25.85 ∨
      25.801 + ((49 : ℕ) : ℚ) * (499/500000) + ((999 : ℚ)/1000 - 0.5) * 0.002 * 1 < 25.75) := by
    left
    norm_num
  have hlonC : ¬ ((-80.1994 : ℚ) + ((1 : ℚ)/2 - 0.5) * 0.002 * 1 > -80.15 ∨
      (-80.1994 : ℚ) + ((1 : ℚ)/2 - 0.5) * 0.002 * 1 < -80.25) := by
    push_neg
    constructor <;> norm_num
  rw [if_pos hlatC, if_neg hlonC]
  simp only [DemoSim.mk.injEq]
  refine ⟨by norm_num, by norm_num, trivial⟩

/-- Along any number of firings of interval 0, the closure state evolves by
iterating the tick body, and the listener list is untouched. -/
theorem foldTicks (env : CbEnv) (r1 r2 : ℚ) (t : Int) :
    ∀ (k : ℕ) (w : World) (sim : DemoSim), w.activeIntervals = [(0, sim)] →
      ((List.replicate k (Ev.demoTick 0 r1 r2 t)).foldl (step env) w).activeIntervals =
        [(0, (fun st => demoTickSim st r1 r2)^[k] sim)] ∧
      ((List.replicate k (Ev.demoTick 0 r1 r2 t)).foldl (step env) w).svc.listeners =
        w.svc.listeners := by
  intro k
  induction k with
  | zero =>
    intro w sim h
    exact ⟨by simpa using h, rfl⟩
  | succ k ih =>
    intro w sim h
    rw [List.replicate_succ, List.foldl_cons,
      show step env w (Ev.demoTick 0 r1 r2 t) = doDemoTick env w 0 r1 r2 t from rfl]
    have hAI : (doDemoTick env w 0 r1 r2 t).activeIntervals =
        [(0, demoTickSim sim r1 r2)] := by
      unfold doDemoTick
      rw [h]
      simp [List.lookup]
    have hLi : (doDemoTick env w 0 r1 r2 t).svc.listeners = w.svc.listeners := by
      unfold doDemoTick
      rw [h]
      simp [List.lookup]
    obtain ⟨h1, h2⟩ := ih (doDemoTick env w 0 r1 r2 t) (demoTickSim sim r1 r2) hAI
    refine ⟨?_, h2.trans hLi⟩
    rw [h1, Function.iterate_succ_apply]

/-- A firing of interval 0 caches and fans out to every current listener the
sample built from the advanced closure state. -/
theorem doDemoTick_publish (env : CbEnv) (w : World) (sim : DemoSim) (r1 r2 : ℚ)
    (t : Int) (h : w.activeIntervals = [(0, sim)]) :
    (doDemoTick env w 0 r1 r2 t).notified =
      w.notified ++ w.svc.listeners.map (fun cb => (cb, tickLoc (demoTickSim sim r1 r2) t)) ∧
    (doDemoTick env w 0 r1 r2 t).svc.currentLocation =
      some (tickLoc (demoTickSim sim r1 r2) t) := by
  unfold doDemoTick
  rw [h]
  simp [List.lookup, notifyListeners_calls]

/-- C8: fifty adversarial 5 second ticks after demo activation drive the
simulated walk out of the bounding box: the fiftieth published sample, the
last one delivered to subscriber 1, carries latitude 25.8509, strictly above
the 25.85 bound, and the demo tag; the direction flips only after the
position has already left the box, so the walk is not confined to it. -/
theorem C8_walk_escapes_box :
    (run quietEnv ([Ev.connect true, Ev.demoFallback 0, Ev.subscribe 1] ++
        List.replicate 50 (Ev.demoTick 0 (999/1000) (1/2) 9))).notified.getLast? =
      some (1, tickLoc (escStep^[50] demoStartSim) 9) ∧
    (tickLoc (escStep^[50] demoStartSim) 9).latitude > 25.85 ∧
    (tickLoc (escStep^[50] demoStartSim) 9).demo = true := by
  refine ⟨?_, ?_, rfl⟩
  · have h0 : (run quietEnv [Ev.connect true, Ev.demoFallback 0,
        Ev.subscribe 1]).activeIntervals = [(0, demoStartSim)] := rfl
    obtain ⟨hAI, hL⟩ := foldTicks quietEnv (999/1000) (1/2) 9 49
      (run quietEnv [Ev.connect true, Ev.demoFallback 0, Ev.subscribe 1]) demoStartSim h0
    rw [show (fun st => demoTickSim st (999/1000) (1/2)) = escStep from rfl] at hAI
    obtain ⟨hN, _⟩ := doDemoTick_publish quietEnv
      ((List.replicate 49 (Ev.demoTick 0 (999/1000) (1/2) 9)).foldl (step quietEnv)
        (run quietEnv [Ev.connect true, Ev.demoFallback 0, Ev.subscribe 1]))
      (escStep^[49] demoStartSim) (999/1000) (1/2) 9 hAI
    rw [show run quietEnv ([Ev.connect true, Ev.demoFallback 0, Ev.subscribe 1] ++
        List.replicate 50 (Ev.demoTick 0 (999/1000) (1/2) 9)) =
      (List.replicate 50 (Ev.demoTick 0 (999/1000) (1/2) 9)).foldl (step quietEnv)
        (run quietEnv [Ev.connect true, Ev.demoFallback 0, Ev.subscribe 1]) from by
        unfold run
        rw [List.foldl_append],
      show (50 : ℕ) = 49 + 1 from rfl, List.replicate_succ', List.foldl_append,
      List.foldl_cons, List.foldl_nil,
      show ∀ v : World, step quietEnv v (Ev.demoTick 0 (999/1000) (1/2) 9) =
        doDemoTick quietEnv v 0 (999/1000) (1/2) 9 from fun v => rfl,
      hN, hL,
      show (run quietEnv [Ev.connect true, Ev.demoFallback 0,
        Ev.subscribe 1]).svc.listeners = [1] from rfl,
      show demoTickSim (escStep^[49] demoStartSim) (999/1000) (1/2) =
        escStep^[50] demoStartSim from
        (show (50 : ℕ) = 49 + 1 from rfl) ▸
          (Function.iterate_succ_apply' escStep 49 demoStartSim).symm]
    simp
  · rw [show (tickLoc (escStep^[50] demoStartSim) 9).latitude =
      (escStep^[50] demoStartSim).lat from rfl, escStep_fifty]
    norm_num

end Coco
